import Mathlib

/-!
Verification of the leader-elector sidecar (Go) against its specification.

The program keeps a process-wide role ("leader" / "follower", initially the
empty string), persists it as one of two marker files, and refreshes the
marker from a background goroutine.  We shallow-embed the relevant code:

* `setRole` embeds the Go function `setRole(role, identity string)`:
  guard on `currentRole == role`, signal cancellation of the previous
  refresh goroutine via `roleCancel()`, remove both marker files, write the
  marker for the new role (failure logged, non-fatal), set `currentRole`,
  and spawn a fresh refresh goroutine.
* `refreshTick` embeds one iteration of the refresh goroutine's ticker
  branch: leaders rewrite the marker file content, followers only touch
  the modification time (`os.Chtimes`).
* `loadConfig` embeds the environment-variable validation in `main` that
  precedes `leaderelection.RunOrDie`.
* A small trace semantics (`validExec`) embeds the interleaving of the
  `setRole` caller with the previous refresh goroutine, where
  `roleCancel()` only signals a `context.Context` and does not join.

File-system state is a pair of optional markers, each a content string and
a modification time (a natural number standing for the clock).
-/

/-- A marker file on disk: its byte content and its modification time. -/
structure Marker where
  content : String
  mtime : Nat
  deriving DecidableEq, Repr

/-- The two fixed marker paths inside the status directory
(`leaderFile`, `followerFile`). -/
inductive MarkerPath where
  | leader
  | follower
  deriving DecidableEq, Repr

/-- The status directory: at each of the two fixed paths, either a marker
file or nothing. -/
structure FS where
  leader : Option Marker
  follower : Option Marker
  deriving DecidableEq, Repr

/-- `os.Remove` on a marker path; a missing file is tolerated
(the Go code ignores the error). -/
def FS.remove (fs : FS) (p : MarkerPath) : FS :=
  match p with
  | .leader => { fs with leader := none }
  | .follower => { fs with follower := none }

/-- `os.WriteFile(path, []byte(identity), 0644)`: (re)creates the file with
the given content; the modification time becomes the current clock. -/
def FS.writeFile (fs : FS) (p : MarkerPath) (content : String) (now : Nat) : FS :=
  match p with
  | .leader => { fs with leader := some ⟨content, now⟩ }
  | .follower => { fs with follower := some ⟨content, now⟩ }

/-- `os.Chtimes(path, now, now)`: updates only the modification time,
leaving content untouched; fails (and is merely logged) when the file is
absent, leaving the file system unchanged. -/
def FS.chtimes (fs : FS) (p : MarkerPath) (now : Nat) : FS :=
  match p with
  | .leader =>
    match fs.leader with
    | some m => { fs with leader := some ⟨m.content, now⟩ }
    | none => fs
  | .follower =>
    match fs.follower with
    | some m => { fs with follower := some ⟨m.content, now⟩ }
    | none => fs

/-- Read the marker at a path. -/
def FS.read (fs : FS) (p : MarkerPath) : Option Marker :=
  match p with
  | .leader => fs.leader
  | .follower => fs.follower

/-- The marker path `setRole` selects for a role string: `followerFile`
unless the role is `"leader"` (Go: `filePath := followerFile;
if role == "leader" { filePath = leaderFile }`). -/
def filePathFor (role : String) : MarkerPath :=
  if role = "leader" then .leader else .follower

/-- Process-wide mutable state of the sidecar: the file system, the global
`currentRole` string, the `roleCancel` handle (`nil` at start, afterwards
the id of the live refresh goroutine), a counter producing fresh goroutine
ids, the ids whose contexts have been cancelled, and the log of reported
(non-fatal) errors. -/
structure SidecarState where
  fs : FS
  currentRole : String
  roleCancel : Option Nat
  nextId : Nat
  cancelledIds : List Nat
  log : List String
  deriving DecidableEq, Repr

/-- The state at process start: no marker files, `currentRole` holds Go's
zero value `""`, `roleCancel` is `nil`. -/
def initState : SidecarState :=
  { fs := ⟨none, none⟩, currentRole := "", roleCancel := none,
    nextId := 0, cancelledIds := [], log := [] }

/-- Embedding of `setRole(role, identity)`.  `writeOk` tells whether the
single `os.WriteFile` call succeeds; `now` is the clock at the write.
Mirrors the Go body line by line: the idempotency guard, the `nil` check
before calling `roleCancel()`, removal of both markers, selection of the
target path, the logged-but-nonfatal write, the assignment to
`currentRole`, and the spawn of a fresh refresh goroutine (recorded as the
new `roleCancel` handle). -/
def setRole (role identity : String) (writeOk : Bool) (now : Nat)
    (st : SidecarState) : SidecarState :=
  if st.currentRole = role then st
  else
    let cancelledIds :=
      match st.roleCancel with
      | some tid => tid :: st.cancelledIds
      | none => st.cancelledIds
    let fs1 := (st.fs.remove .leader).remove .follower
    let fp := filePathFor role
    let fs2 := if writeOk then fs1.writeFile fp identity now else fs1
    let log :=
      if writeOk then st.log
      else st.log ++ ["failed to write " ++ role ++ " file"]
    { fs := fs2, currentRole := role, roleCancel := some st.nextId,
      nextId := st.nextId + 1, cancelledIds := cancelledIds, log := log }

/-- One ticker iteration of the refresh goroutine spawned by `setRole`
(labelled variant): it reads the global `currentRole`; a leader re-issues
`os.WriteFile(filePath, []byte(identity), 0644)`, a follower only calls
`os.Chtimes(filePath, now, now)`. -/
def refreshTick (currentRole : String) (filePath : MarkerPath)
    (identity : String) (now : Nat) (fs : FS) : FS :=
  if currentRole = "leader" then fs.writeFile filePath identity now
  else fs.chtimes filePath now

/-- Embedding of the `OnNewLeader` callback: `if identity != id
{ setRole("follower", id) }`.  `identity` is the observed leader,
`id` this process's own identity.  Returns the new state and whether
`setRole` was invoked. -/
def onNewLeader (identity id : String) (writeOk : Bool) (now : Nat)
    (st : SidecarState) : SidecarState × Bool :=
  if identity ≠ id then (setRole "follower" id writeOk now st, true)
  else (st, false)

/-- `tickInterval = 2 * time.Second` (labelled variant; its comment reads
"Match leader election retry period").  In seconds. -/
def tickInterval : Nat := 2

/-- `tickInterval = 5 * time.Second` in the unlabelled `main.go` variant.
In seconds. -/
def tickIntervalMainGo : Nat := 5

/-- `LeaseDuration: 15 * time.Second` passed to `RunOrDie`.  In seconds. -/
def leaseDuration : Nat := 15

/-- `RenewDeadline: 10 * time.Second` passed to `RunOrDie`.  In seconds. -/
def renewDeadline : Nat := 10

/-- `RetryPeriod: 2 * time.Second` passed to `RunOrDie`.  In seconds. -/
def retryPeriod : Nat := 2

/-- The environment variables consulted by `main` before the election
starts; `none` models an unset variable. -/
structure Env where
  leaseName : Option String
  namespaceName : Option String
  labelPodRoleVar : Option String
  podName : Option String
  deriving DecidableEq, Repr

/-- `os.Getenv("LABEL_POD_ROLE") == "true"` (Getenv yields `""` when the
variable is unset). -/
def Env.labelPodRole (env : Env) : Bool :=
  env.labelPodRoleVar.getD "" = "true"

/-- The configuration `main` needs before calling
`leaderelection.RunOrDie`. -/
structure Config where
  leaseName : String
  namespaceName : String
  labelPodRole : Bool
  podName : String
  deriving DecidableEq, Repr

/-- Embedding of the configuration checks in `main`, in program order:
`LEASE_NAME` (panic when unset), `NAMESPACE` (panic when unset), then —
only when `LABEL_POD_ROLE` is `"true"` — `POD_NAME` (panic when unset).
A `panic` aborts the process, so `.error` means `RunOrDie` is never
reached. -/
def loadConfig (env : Env) : Except String Config :=
  match env.leaseName with
  | none => .error "LEASE_NAME not set"
  | some ln =>
    match env.namespaceName with
    | none => .error "NAMESPACE not set"
    | some ns =>
      if env.labelPodRole then
        match env.podName with
        | none => .error "POD_NAME must be set when LABEL_POD_ROLE is enabled"
        | some pn => .ok ⟨ln, ns, true, pn⟩
      else .ok ⟨ln, ns, false, ""⟩

/-- Whether `main`, run in environment `env`, reaches the
`leaderelection.RunOrDie` call (every configuration panic precedes it). -/
def electionAttempted (env : Env) : Bool :=
  match loadConfig env with
  | .ok _ => true
  | .error _ => false

/-!
Trace semantics for the hand-over between a `setRole` call and the
previous refresh goroutine.  `roleCancel()` cancels a `context.Context`:
it signals, it does not join — `setRole` continues immediately, while the
goroutine keeps running until its `select` observes `ctx.Done()` (and even
then a pending ticker case may still be chosen).  An execution is a list
of atomic actions; task `t` below is the previous refresh goroutine.
-/

/-- Atomic actions of a role transition interleaved with the previous
refresh goroutine `t`: the caller's `roleCancel()` signal, its two marker
removals (collapsed into one action), its marker write; the goroutine's
marker write/touch of one tick, and its return upon observing
`ctx.Done()`. -/
inductive Act where
  | cancelSignal : Nat → Act
  | removeMarkers : Act
  | writeMarker : Act
  | tickWrite : Nat → Act
  | taskReturn : Nat → Act
  deriving DecidableEq, Repr

/-- The actions `setRole` itself performs past the guard, in program
order: signal `roleCancel()`, remove both markers, write the new
marker. -/
def setRoleActions (t : Nat) : List Act :=
  [.cancelSignal t, .removeMarkers, .writeMarker]

/-- Actions performed by the `setRole` caller (as opposed to the
goroutine). -/
def isCallerAction : Act → Bool
  | .cancelSignal _ => true
  | .removeMarkers => true
  | .writeMarker => true
  | _ => false

/-- Local validity of goroutine `t`'s actions inside a trace, scanning
left to right.  `c` records whether `t`'s context has been cancelled, `s`
whether `t` has returned.  A tick write only requires the goroutine not to
have returned — Go's `select` may serve a pending tick even after
cancellation, and `roleCancel()` never waits.  Returning requires a prior
cancellation signal and happens once. -/
def taskLocalOk (t : Nat) : List Act → Bool → Bool → Bool
  | [], _, _ => true
  | a :: rest, c, s =>
    match a with
    | .cancelSignal u => taskLocalOk t rest (c || (u = t : Bool)) s
    | .tickWrite u =>
      if u = t then !s && taskLocalOk t rest c s
      else taskLocalOk t rest c s
    | .taskReturn u =>
      if u = t then c && !s && taskLocalOk t rest c true
      else taskLocalOk t rest c s
    | _ => taskLocalOk t rest c s

/-- A trace is a valid execution of one `setRole` transition interleaved
with the previous refresh goroutine `t`: the caller's actions appear
exactly in program order, and `t`'s actions respect context
cancellation. -/
def validExec (t : Nat) (tr : List Act) : Prop :=
  tr.filter isCallerAction = setRoleActions t ∧ taskLocalOk t tr false false = true

instance (t : Nat) (tr : List Act) : Decidable (validExec t tr) := by
  unfold validExec; infer_instance

/-- `true` when some `taskReturn t` precedes `removeMarkers` in the trace:
the claim's "cancel-and-join before any marker mutation". -/
def joinedBeforeMutation (t : Nat) : List Act → Bool
  | [] => false
  | .taskReturn u :: rest =>
    if u = t then true else joinedBeforeMutation t rest
  | .removeMarkers :: _ => false
  | _ :: rest => joinedBeforeMutation t rest

/-- `true` when no `tickWrite t` occurs at or after the first marker
mutation (`removeMarkers` or `writeMarker`) of the trace. -/
def noOldWriteAfterMutation (t : Nat) : List Act → Bool
  | [] => true
  | .removeMarkers :: rest => rest.all fun a => a ≠ .tickWrite t
  | .writeMarker :: rest => rest.all fun a => a ≠ .tickWrite t
  | _ :: rest => noOldWriteAfterMutation t rest

/-- A concrete execution permitted by context cancellation: `setRole`
signals, removes, and writes, and only afterwards does the cancelled
goroutine run one more tick and return. -/
def lateTickTrace : List Act :=
  [.cancelSignal 0, .removeMarkers, .writeMarker, .tickWrite 0, .taskReturn 0]

/-- The other of the two marker paths. -/
def MarkerPath.other : MarkerPath → MarkerPath
  | .leader => .follower
  | .follower => .leader

/-- C1: after a completed `setRole(newRole, identity)` with
`newRole ∈ {leader, follower}`, `newRole ≠ currentRole` and a succeeding
marker write, the marker file of `newRole` exists with content `identity`
(written at clock `now`) and the other marker path is absent, so exactly
one of the two marker files exists. -/
theorem setRole_mutual_exclusion (role identity : String) (now : Nat)
    (st : SidecarState)
    (hrole : role = "leader" ∨ role = "follower")
    (hne : st.currentRole ≠ role) :
    (setRole role identity true now st).fs.read (filePathFor role)
        = some ⟨identity, now⟩
    ∧ (setRole role identity true now st).fs.read (filePathFor role).other
        = none := by
  rcases hrole with h | h <;> subst h <;>
    simp [setRole, hne, filePathFor, MarkerPath.other, FS.read, FS.remove,
      FS.writeFile]

/-- C1 witness: a concrete first transition to leader. -/
theorem setRole_mutual_exclusion_witness :
    (setRole "leader" "pod-a" true 3 initState).fs.read
        (filePathFor "leader") = some ⟨"pod-a", 3⟩
    ∧ (setRole "leader" "pod-a" true 3 initState).fs.read
        (filePathFor "leader").other = none :=
  setRole_mutual_exclusion "leader" "pod-a" 3 initState (Or.inl rfl)
    (by decide)

/-- C2: when `currentRole` already equals the requested role, `setRole`
returns at the guard and the whole sidecar state — file system, current
role, cancellation handle, goroutine bookkeeping and log — is unchanged:
no marker is removed or written, no task is cancelled or started. -/
theorem setRole_noop_on_same_role (role identity : String) (writeOk : Bool)
    (now : Nat) (st : SidecarState) (h : st.currentRole = role) :
    setRole role identity writeOk now st = st := by
  simp [setRole, h]

/-- C2 witness: repeating the leader transition changes nothing. -/
theorem setRole_noop_on_same_role_witness :
    setRole "leader" "pod-b" false 9
        (setRole "leader" "pod-a" true 3 initState)
      = setRole "leader" "pod-a" true 3 initState :=
  setRole_noop_on_same_role "leader" "pod-b" false 9 _ (by decide)

/-- C4: one refresh tick while the bound role is current: a leader-bound
tick rewrites the leader marker's full content with the bound identity and
stamps the current clock (content and modification time together); a
follower-bound tick maps the follower marker to the same content with the
new modification time (byte-for-byte unchanged content) and leaves the
leader path alone. -/
theorem refreshTick_spec (role identity : String) (now : Nat) (fs : FS) :
    (role = "leader" →
      (refreshTick role .leader identity now fs).leader
          = some ⟨identity, now⟩)
    ∧ (role = "follower" →
      (refreshTick role .follower identity now fs).follower
          = fs.follower.map (fun m => ⟨m.content, now⟩)
      ∧ (refreshTick role .follower identity now fs).leader = fs.leader) := by
  constructor
  · intro h; subst h; simp [refreshTick, FS.writeFile]
  · intro h; subst h
    cases hf : fs.follower <;> simp [refreshTick, FS.chtimes, hf]

/-- C4 witness: a leader tick and a follower tick on concrete states. -/
theorem refreshTick_spec_witness :
    (refreshTick "leader" .leader "pod-a" 8
        ⟨some ⟨"pod-a", 3⟩, none⟩).leader = some ⟨"pod-a", 8⟩
    ∧ ((refreshTick "follower" .follower "pod-a" 8
        ⟨none, some ⟨"pod-a", 3⟩⟩).follower
          = (some (Marker.mk "pod-a" 3)).map (fun m => ⟨m.content, 8⟩)
      ∧ (refreshTick "follower" .follower "pod-a" 8
        ⟨none, some ⟨"pod-a", 3⟩⟩).leader = none) :=
  ⟨(refreshTick_spec "leader" "pod-a" 8 ⟨some ⟨"pod-a", 3⟩, none⟩).1 rfl,
   (refreshTick_spec "follower" "pod-a" 8 ⟨none, some ⟨"pod-a", 3⟩⟩).2 rfl⟩

/-- C5 counterexample: the compiled constants do not satisfy
`tickInterval < RetryPeriod` — the labelled variant matches them exactly
(2 s each). -/
theorem tickInterval_not_lt_retryPeriod : ¬ tickInterval < retryPeriod := by
  decide

/-- C5 amended: the refresh tick period is not strictly shorter than the
election retry period: the labelled variant sets them equal (2 s, per its
own comment), and the `main.go` variant's tick period (5 s) exceeds it. -/
theorem tickInterval_vs_retryPeriod :
    tickInterval = retryPeriod ∧ retryPeriod < tickIntervalMainGo := by
  decide

/-- C6: when the marker write fails inside a non-no-op transition,
`setRole` logs the failure and still advances `currentRole` to the new
role and still spawns the new refresh goroutine (a fresh cancellation
handle replaces the old one). -/
theorem setRole_write_failure_nonfatal (role identity : String) (now : Nat)
    (st : SidecarState) (hne : st.currentRole ≠ role) :
    (setRole role identity false now st).currentRole = role
    ∧ (setRole role identity false now st).roleCancel = some st.nextId
    ∧ (setRole role identity false now st).nextId = st.nextId + 1
    ∧ (setRole role identity false now st).log
        = st.log ++ ["failed to write " ++ role ++ " file"] := by
  simp [setRole, hne]

/-- C6 witness: a failing write on the first transition still yields the
leader role and a running task. -/
theorem setRole_write_failure_nonfatal_witness :
    (setRole "leader" "pod-a" false 3 initState).currentRole = "leader"
    ∧ (setRole "leader" "pod-a" false 3 initState).roleCancel
        = some initState.nextId
    ∧ (setRole "leader" "pod-a" false 3 initState).nextId
        = initState.nextId + 1
    ∧ (setRole "leader" "pod-a" false 3 initState).log
        = initState.log ++ ["failed to write " ++ "leader" ++ " file"] :=
  setRole_write_failure_nonfatal "leader" "pod-a" 3 initState (by decide)

/-- C7: the `OnNewLeader` callback invokes
`setRole("follower", selfIdentity)` exactly when the observed identity
differs from this process's own identity; on its own identity it performs
nothing and the state, files included, is untouched. -/
theorem onNewLeader_spec (identity id : String) (writeOk : Bool) (now : Nat)
    (st : SidecarState) :
    ((onNewLeader identity id writeOk now st).2 = true ↔ identity ≠ id)
    ∧ (identity ≠ id →
        onNewLeader identity id writeOk now st
          = (setRole "follower" id writeOk now st, true))
    ∧ (identity = id → onNewLeader identity id writeOk now st = (st, false)) := by
  by_cases h : identity = id <;> simp [onNewLeader, h]

/-- C7 witness: `onNewLeader("pod-a")` with self identity `"pod-a"` leaves
the state untouched. -/
theorem onNewLeader_spec_witness :
    onNewLeader "pod-a" "pod-a" true 5 initState = (initState, false) :=
  (onNewLeader_spec "pod-a" "pod-a" true 5 initState).2.2 rfl

/-- C8: when a required setting is missing — `LEASE_NAME` unset,
`NAMESPACE` unset, or `POD_NAME` unset while `LABEL_POD_ROLE` is enabled —
the startup checks panic, so configuration loading yields an error and
`leaderelection.RunOrDie` is never reached: no election is attempted. -/
theorem missing_config_fatal (env : Env)
    (h : env.leaseName = none ∨ env.namespaceName = none
        ∨ (env.labelPodRole = true ∧ env.podName = none)) :
    (∃ msg, loadConfig env = .error msg) ∧ electionAttempted env = false := by
  rcases h with h | h | ⟨h1, h2⟩ <;>
    cases hl : env.leaseName <;> cases hn : env.namespaceName <;>
      simp_all [loadConfig, electionAttempted]

/-- C8 witness: labeling enabled but `POD_NAME` unset aborts startup. -/
theorem missing_config_fatal_witness :
    (∃ msg, loadConfig ⟨some "lock", some "ns", some "true", none⟩
        = .error msg)
    ∧ electionAttempted ⟨some "lock", some "ns", some "true", none⟩
        = false :=
  missing_config_fatal ⟨some "lock", some "ns", some "true", none⟩
    (Or.inr (Or.inr ⟨by decide, rfl⟩))

/-- C9: the first transition after process start is never suppressed and
never calls a nil handle: `currentRole` starts as the empty string, which
differs from both `"leader"` and `"follower"`, so the guard passes and the
role is set; and since `roleCancel` starts as `nil`, the nil check skips
the cancel step, leaving no cancelled context behind. -/
theorem first_transition_safe (role identity : String) (now : Nat)
    (hrole : role = "leader" ∨ role = "follower") :
    initState.currentRole ≠ role
    ∧ initState.roleCancel = none
    ∧ (setRole role identity true now initState).currentRole = role
    ∧ (setRole role identity true now initState).cancelledIds = [] := by
  rcases hrole with h | h <;> subst h <;>
    refine ⟨by decide, rfl, ?_, ?_⟩ <;> simp [setRole, initState]

/-- C9 witness: the initial transition to leader. -/
theorem first_transition_safe_witness :
    initState.currentRole ≠ "leader"
    ∧ initState.roleCancel = none
    ∧ (setRole "leader" "pod-a" true 0 initState).currentRole = "leader"
    ∧ (setRole "leader" "pod-a" true 0 initState).cancelledIds = [] :=
  first_transition_safe "leader" "pod-a" 0 (Or.inl rfl)

/-- C10: the idempotency guard compares only the role: after a transition
to `role` wrote identity `id1`, a further `setRole(role, id2)` is a
complete no-op even for `id2 ≠ id1`, and the marker file still carries
`id1`, never `id2`. -/
theorem setRole_guard_ignores_identity (role id1 id2 : String)
    (w2 : Bool) (t1 t2 : Nat) (st : SidecarState)
    (hne : st.currentRole ≠ role) (hid : id2 ≠ id1) :
    setRole role id2 w2 t2 (setRole role id1 true t1 st)
        = setRole role id1 true t1 st
    ∧ (setRole role id2 w2 t2 (setRole role id1 true t1 st)).fs.read
        (filePathFor role) = some ⟨id1, t1⟩ := by
  have hcur : (setRole role id1 true t1 st).currentRole = role := by
    simp [setRole, hne]
  have hnoop : setRole role id2 w2 t2 (setRole role id1 true t1 st)
      = setRole role id1 true t1 st := by
    simp [setRole, hne]
  refine ⟨hnoop, ?_⟩
  rw [hnoop]
  by_cases h : role = "leader"
  · subst h
    simp [setRole, hne, filePathFor, FS.read, FS.remove, FS.writeFile]
  · simp [setRole, hne, filePathFor, h, FS.read, FS.remove, FS.writeFile]

/-- C10 witness: becoming follower as `"pod-a"`, then a second follower
transition carrying `"pod-b"` changes nothing and the marker still reads
`"pod-a"`. -/
theorem setRole_guard_ignores_identity_witness :
    setRole "follower" "pod-b" true 9
        (setRole "follower" "pod-a" true 3 initState)
      = setRole "follower" "pod-a" true 3 initState
    ∧ (setRole "follower" "pod-b" true 9
        (setRole "follower" "pod-a" true 3 initState)).fs.read
          (filePathFor "follower") = some ⟨"pod-a", 3⟩ :=
  setRole_guard_ignores_identity "follower" "pod-a" "pod-b" true 3 9
    initState (by decide) (by decide)

/-- C3 counterexample: `lateTickTrace` is a valid execution of one
transition under Go's signal-only context cancellation, yet the old
goroutine never returned before the marker removal (no join) and it issued
a write after the new role's marker mutation had begun — refuting both the
wait and the no-late-write parts of the claim. -/
theorem cancelAndJoin_counterexample :
    validExec 0 lateTickTrace
    ∧ joinedBeforeMutation 0 lateTickTrace = false
    ∧ noOldWriteAfterMutation 0 lateTickTrace = false := by
  decide

/-- C3 amended: in every valid execution of a transition, `setRole` does
signal `roleCancel()` before it removes or rewrites any marker file — but
it does not wait for the cancelled goroutine to stop, so a write from the
old goroutine may still land after the mutation begins. -/
theorem cancelSignal_before_mutation (t : Nat) (tr : List Act)
    (h : validExec t tr) :
    List.Sublist [Act.cancelSignal t, Act.removeMarkers] tr := by
  have hmain : List.Sublist (setRoleActions t) tr := by
    rw [← h.1]; exact List.filter_sublist tr
  refine List.Sublist.trans ?_ hmain
  exact List.Sublist.cons₂ _ (List.Sublist.cons₂ _ (List.nil_sublist _))

/-- C3 amended witness: the signal-precedes-mutation ordering on the
concrete late-tick execution. -/
theorem cancelSignal_before_mutation_witness :
    List.Sublist [Act.cancelSignal 0, Act.removeMarkers] lateTickTrace :=
  cancelSignal_before_mutation 0 lateTickTrace (by decide)
